import Mathlib

/-!
Verification of the authentication core of the support-crm backend.

The embedding follows `app/routers/utils.py` (password verification,
`create_access_token`, `authenticate_user`, `get_current_user`,
`get_current_active_user`), `app/auth.py` and `app/routers/auth.py`
(`register`, `login`), and `app/models.py` (the `User` record).

Modelling conventions:
- Time is integer seconds since the epoch; `datetime.utcnow()` becomes an
  explicit `now : Int` parameter threaded through the functions.
- A JWT payload is an association list of claim names to claim values, as a
  Python dict observed through `get`; `dict.update` is modelled by
  `updateClaim` (remove the key, append the new binding).
- The HMAC-SHA256 signature computed by the `jose` library is modelled by a
  concrete injective tagging of the secret and the serialized payload;
  verification recomputes it and compares for equality, as the library does.
- The bcrypt hasher of `passlib` is modelled with its random salt made an
  explicit parameter; the digest embeds the salt, and verification checks
  the digest against the recomputed form.
- `HTTPException` becomes a record of status code and detail string; a
  function that may raise returns `Except HTTPError`.
-/

namespace SupportCRM

/-- A JWT claim value: a string (the subject) or an integer (the expiry). -/
inductive ClaimVal where
  | str : String → ClaimVal
  | int : Int → ClaimVal
deriving DecidableEq, Repr

/-- The claims payload of a token, as an association list (a Python dict). -/
abbrev Payload := List (String × ClaimVal)

/-- `to_encode.update({k: v})`: replace any existing binding of `k`, adding
the binding at the end (observationally equal to dict update under `get`). -/
def updateClaim (p : Payload) (k : String) (v : ClaimVal) : Payload :=
  (p.filter (fun kv => kv.1 != k)) ++ [(k, v)]

/-- A serialization of claim values, used below the signature model. -/
def serializeVal : ClaimVal → String
  | .str s => "s:" ++ s
  | .int n => "i:" ++ toString n

/-- A serialization of the claims payload, used below the signature model. -/
def serializePayload : Payload → String
  | [] => ""
  | (k, v) :: rest => k ++ "=" ++ serializeVal v ++ ";" ++ serializePayload rest

/-- Model of the HMAC-SHA256 tag the `jose` library computes over the
serialized claims with the server secret (an ideal MAC: a concrete
injective function of secret and payload). -/
def hmacSign (secret : String) (payload : Payload) : String :=
  "hmac[" ++ secret ++ "|" ++ serializePayload payload ++ "]"

/-- An encoded token: its claims payload together with its signature
segment. (The constant header of the compact form is omitted.) -/
structure Token where
  payload : Payload
  sig : String
deriving DecidableEq, Repr

/-- `SECRET_KEY` from `app/routers/utils.py`. -/
def SECRET_KEY : String := "your-secret-key"

/-- `ACCESS_TOKEN_EXPIRE_MINUTES` from `app/routers/utils.py`. -/
def ACCESS_TOKEN_EXPIRE_MINUTES : Int := 30

/-- `jwt.encode(to_encode, SECRET_KEY, algorithm=ALGORITHM)`: sign the
payload with the secret. -/
def jwtEncode (secret : String) (payload : Payload) : Token :=
  { payload := payload, sig := hmacSign secret payload }

/-- The error kinds of token decoding (all subclasses of `JWTError` in the
`jose` library): bad signature, expired token, and a claims-shape error. -/
inductive TokenError where
  | badSignature
  | expired
  | malformed
deriving DecidableEq, Repr

/-- `jwt.decode(token, SECRET_KEY, algorithms=[ALGORITHM])`: verify the
signature first, then validate the `exp` claim against the current time
(expired when `exp < now`). -/
def jwtDecode (secret : String) (tok : Token) (now : Int) : Except TokenError Payload :=
  if tok.sig = hmacSign secret tok.payload then
    match tok.payload.lookup "exp" with
    | some (.int e) => if e < now then .error .expired else .ok tok.payload
    | some _ => .error .malformed
    | none => .ok tok.payload
  else .error .badSignature

/-- `create_access_token(data, expires_delta)` at time `now`, with
`expires_delta` in seconds. `if expires_delta:` is Python truthiness, so
both an absent and a zero delta take the 15-minute default branch. -/
def create_access_token (data : Payload) (expires_delta : Option Int) (now : Int) : Token :=
  let expire : Int :=
    match expires_delta with
    | some d => if d ≠ 0 then now + d else now + 15 * 60
    | none => now + 15 * 60
  jwtEncode SECRET_KEY (updateClaim data "exp" (.int expire))

/-- The token-validation stage of `get_current_user` (decode, then require
the `sub` claim), with the error kinds distinguished: the absent subject of
line 128 is the claims-shape (`malformed`) rejection. -/
def decodeClaims (tok : Token) (now : Int) : Except TokenError ClaimVal :=
  match jwtDecode SECRET_KEY tok now with
  | .error e => .error e
  | .ok payload =>
    match payload.lookup "sub" with
    | none => .error .malformed
    | some v => .ok v

/-- The `User` row of `app/models.py` (the fields the auth core reads). -/
structure User where
  id : Nat
  username : String
  email : String
  hashed_password : String
  role : String
  is_active : Bool
deriving DecidableEq, Repr

/-- The credential store: the `users` table as a list of rows. -/
abbrev DB := List User

/-- `db.query(User).filter(User.username == u).first()`. -/
def findByUsername (db : DB) (u : String) : Option User :=
  db.find? (fun r => r.username == u)

/-- `db.query(User).filter(User.email == e).first()`. -/
def findByEmail (db : DB) (e : String) : Option User :=
  db.find? (fun r => r.email == e)

/-- `get_password_hash` (passlib bcrypt, modelled): the digest embeds the
salt — made an explicit parameter in place of the library's randomness —
and the password, through an injective encoding. -/
def get_password_hash (salt : Nat) (password : String) : String :=
  "bc$" ++ toString salt ++ "$" ++ password

/-- `verify_password` (passlib bcrypt, modelled): recompute from the salt
embedded in the digest and compare, i.e. check the digest has the shape
`get_password_hash` gives it for this plaintext. -/
def verify_password (plain_password : String) (hashed_password : String) : Bool :=
  (List.isPrefixOf "bc$".data hashed_password.data)
    && (List.isSuffixOf ("$" ++ plain_password).data hashed_password.data)

/-- An `HTTPException`: status code and detail message. -/
structure HTTPError where
  status_code : Nat
  detail : String
deriving DecidableEq, Repr

/-- The single 401 `credentials_exception` of `get_current_user`. -/
def credentials_exception : HTTPError :=
  { status_code := 401, detail := "Could not validate credentials" }

/-- `authenticate_user`: look the username up; when absent, or when the
password does not verify against the stored digest, return the same
no-identity result (the source returns `False` in both branches). -/
def authenticate_user (db : DB) (username password : String) : Option User :=
  match findByUsername db username with
  | none => none
  | some user =>
    if verify_password password user.hashed_password then some user else none

/-- `get_current_user`: decode the token (any `JWTError`, and an absent
subject, raise the one 401 `credentials_exception`), then resolve the
subject to a current row, raising the same exception when none exists. -/
def get_current_user (tok : Token) (db : DB) (now : Int) : Except HTTPError User :=
  match decodeClaims tok now with
  | .error _ => .error credentials_exception
  | .ok subv =>
    match subv with
    | .str username =>
      match findByUsername db username with
      | none => .error credentials_exception
      | some user => .ok user
    | .int _ => .error credentials_exception

/-- `get_current_active_user`: after `get_current_user`, reject an inactive
account with the distinct 400 "Inactive user" exception. -/
def get_current_active_user (tok : Token) (db : DB) (now : Int) : Except HTTPError User :=
  match get_current_user tok db now with
  | .error e => .error e
  | .ok user =>
    if user.is_active then .ok user
    else .error { status_code := 400, detail := "Inactive user" }

/-- The body of `POST /auth/login` (`app/auth.py` and `app/routers/auth.py`
agree: `ACCESS_TOKEN_EXPIRE_MINUTES = 30`): authenticate, then issue a
token for the user's username with an explicit 30-minute delta. -/
def login (db : DB) (username password : String) (now : Int) : Except HTTPError Token :=
  match authenticate_user db username password with
  | none =>
    .error { status_code := 401, detail := "Incorrect username or password" }
  | some user =>
    .ok (create_access_token [("sub", .str user.username)]
          (some (ACCESS_TOKEN_EXPIRE_MINUTES * 60)) now)

/-- The request body of `POST /auth/register`. -/
structure UserCreate where
  username : String
  email : String
  password : String
  role : String
deriving DecidableEq, Repr

/-- The body of `POST /auth/register` (both variants): reject with 400 when
the username, then the email, already exists — before any write — else add
a row with the hashed password and the active flag true. The store is
returned alongside the result; `salt` stands for the hasher's randomness
and the fresh id models the autoincrement key. -/
def register (u : UserCreate) (db : DB) (salt : Nat) : Except HTTPError User × DB :=
  match findByUsername db u.username with
  | some _ => (.error { status_code := 400, detail := "Username already registered" }, db)
  | none =>
    match findByEmail db u.email with
    | some _ => (.error { status_code := 400, detail := "Email already registered" }, db)
    | none =>
      let newUser : User :=
        { id := db.length + 1
          username := u.username
          email := u.email
          hashed_password := get_password_hash salt u.password
          role := u.role
          is_active := true }
      (.ok newUser, db ++ [newUser])

/-! ### Helper lemmas -/

/-- After `updateClaim p k v`, looking `k` up yields `v`. -/
theorem lookup_updateClaim_self (p : Payload) (k : String) (v : ClaimVal) :
    (updateClaim p k v).lookup k = some v := by
  induction p with
  | nil => simp [updateClaim, List.lookup]
  | cons hd tl ih =>
    by_cases h : hd.1 = k
    · simpa [updateClaim, List.filter, h] using ih
    · have hne : (hd.1 != k) = true := by simpa using h
      simp only [updateClaim, List.filter, hne, List.cons_append, List.lookup]
      have : (k == hd.1) = false := by simpa using Ne.symm h
      simpa [updateClaim, this] using ih

/-- `updateClaim p k v` leaves the lookup of any other key unchanged. -/
theorem lookup_updateClaim_other (p : Payload) (k q : String) (v : ClaimVal)
    (h : q ≠ k) : (updateClaim p k v).lookup q = p.lookup q := by
  induction p with
  | nil =>
    have hqk : (q == k) = false := by simpa using h
    simp [updateClaim, List.lookup, hqk]
  | cons hd tl ih =>
    by_cases hh : hd.1 = k
    · have hqh : (q == hd.1) = false := by
        simp [hh]
        exact h
      simp only [updateClaim, List.filter, show (hd.1 != k) = false by simpa using hh]
      simpa [updateClaim, List.lookup, hqh] using ih
    · simp only [updateClaim, List.filter, show (hd.1 != k) = true by simpa using hh,
        List.cons_append, List.lookup]
      cases hq : (q == hd.1) with
      | true => rfl
      | false => simpa [updateClaim] using ih

/-- A found row's username is the username searched for. -/
theorem findByUsername_username {db : DB} {u : String} {r : User}
    (h : findByUsername db u = some r) : r.username = u := by
  have := List.find?_some h
  simpa using this

/-- `authenticate_user` succeeds only with the row found under the queried
username. -/
theorem authenticate_user_some {db : DB} {u p : String} {r : User}
    (h : authenticate_user db u p = some r) :
    findByUsername db u = some r ∧ r.username = u := by
  unfold authenticate_user at h
  cases hf : findByUsername db u with
  | none => simp [hf] at h
  | some user =>
    simp only [hf] at h
    by_cases hv : verify_password p user.hashed_password
    · simp [hv] at h
      subst h
      exact ⟨rfl, findByUsername_username hf⟩
    · simp [hv] at h

/-- A successful login's token is exactly the 30-minute token for the
queried username. -/
theorem login_ok_shape {db : DB} {u p : String} {now : Int} {tok : Token}
    (h : login db u p now = .ok tok) :
    tok = create_access_token [("sub", .str u)]
            (some (ACCESS_TOKEN_EXPIRE_MINUTES * 60)) now := by
  unfold login at h
  cases ha : authenticate_user db u p with
  | none => simp [ha] at h
  | some user =>
    simp only [ha] at h
    cases h
    rw [(authenticate_user_some ha).2]

/-- Two character lists of the same length differing in exactly one
position (the model of altering one character of a string segment). -/
def differOneChar : List Char → List Char → Bool
  | [], [] => false
  | c :: cs, d :: ds => if c = d then differOneChar cs ds else cs == ds
  | _, _ => false

/-- Lists differing in one character are unequal. -/
theorem differOneChar_ne {l l2 : List Char} (h : differOneChar l l2 = true) :
    l ≠ l2 := by
  induction l generalizing l2 with
  | nil => cases l2 <;> simp [differOneChar] at h ⊢
  | cons c cs ih =>
    cases l2 with
    | nil => simp [differOneChar] at h
    | cons d ds =>
      by_cases hcd : c = d
      · rw [differOneChar, if_pos hcd] at h
        intro he
        injection he with h1 h2
        exact ih h h2
      · intro he
        injection he with h1 h2
        exact hcd h1

/-- A signature tag is never the empty string. -/
theorem hmacSign_ne_empty (secret : String) (p : Payload) :
    hmacSign secret p ≠ "" := by
  intro h
  have hlen := congrArg String.length h
  simp [hmacSign, String.length_append] at hlen
  exact absurd hlen.1.1.1.1 (by decide)

/-- A token presented with a signature other than the recomputed tag is
rejected with the bad-signature error. -/
theorem jwtDecode_sig_ne {secret : String} {p : Payload} {s : String}
    {now : Int} (h : ¬ s = hmacSign secret p) :
    jwtDecode secret { payload := p, sig := s } now = .error .badSignature := by
  simp [jwtDecode, h]

/-- Decoding an issued `{sub: s}` token at any time not past its expiry
yields the subject. -/
theorem decodeClaims_issue (s : String) (ttl now now2 : Int) (hne : ttl ≠ 0)
    (hexp : ¬ (now + ttl < now2)) :
    decodeClaims (create_access_token [("sub", .str s)] (some ttl) now) now2
      = .ok (.str s) := by
  simp [decodeClaims, create_access_token, jwtEncode, jwtDecode, updateClaim,
    List.lookup, List.filter, hne, hexp]

/-! ### Claims -/

/-- C1. Token round-trip: for every subject `s` and every `ttl > 0`,
decoding a token produced by `create_access_token` with payload
`{sub: s}` and positive `expires_delta`, immediately after issuance,
succeeds and yields the subject `s`. -/
theorem token_roundtrip (s : String) (ttl now : Int) (h : 0 < ttl) :
    decodeClaims (create_access_token [("sub", .str s)] (some ttl) now) now
      = .ok (.str s) :=
  decodeClaims_issue s ttl now now (by omega) (by omega)

/-- C1 witness: the round-trip at subject "alice", ttl 60 s, now 0. -/
theorem token_roundtrip_witness :
    decodeClaims (create_access_token [("sub", .str "alice")] (some 60) 0) 0
      = .ok (.str "alice") :=
  token_roundtrip "alice" 60 0 (by decide)

/-- C2 counterexample: a token whose expiry timestamp is in the past but
whose signature segment is not the correct tag (here empty) is rejected
with the bad-signature error, not the expired error — the signature is
checked first, so the claim is false as stated for arbitrary tokens. -/
theorem decode_expired_counterexample :
    (Token.mk
        (create_access_token [("sub", ClaimVal.str "alice")] (some (-60)) 1000).payload
        "").payload.lookup "exp" = some (.int 940)
  ∧ decodeClaims
      (Token.mk
        (create_access_token [("sub", ClaimVal.str "alice")] (some (-60)) 1000).payload
        "") 1000 = .error .badSignature := by
  constructor
  · rfl
  · rfl

/-- C2 amended: (a) every correctly-signed token whose expiry is in the
past is rejected with the expired error; (b) every issued token with one
character of its signature segment altered is rejected with the
bad-signature error; (c) every correctly-signed, unexpired token whose
subject claim is absent is rejected with the malformed error. -/
theorem decode_error_classification :
    (∀ (p : Payload) (e now : Int), p.lookup "exp" = some (.int e) → e < now →
      decodeClaims (jwtEncode SECRET_KEY p) now = .error .expired)
  ∧ (∀ (data : Payload) (ed : Option Int) (now now2 : Int) (sig2 : String),
      differOneChar (create_access_token data ed now).sig.data sig2.data = true →
      decodeClaims
        { payload := (create_access_token data ed now).payload, sig := sig2 } now2
        = .error .badSignature)
  ∧ (∀ (p : Payload) (e now : Int), p.lookup "exp" = some (.int e) → ¬ e < now →
      p.lookup "sub" = none →
      decodeClaims (jwtEncode SECRET_KEY p) now = .error .malformed) := by
  refine ⟨?_, ?_, ?_⟩
  · intro p e now hexp hlt
    simp [decodeClaims, jwtEncode, jwtDecode, hexp, hlt]
  · intro data ed now now2 sig2 hdiff
    have hsig : (create_access_token data ed now).sig
        = hmacSign SECRET_KEY (create_access_token data ed now).payload := rfl
    have hne : ¬ sig2 = hmacSign SECRET_KEY (create_access_token data ed now).payload := by
      rw [← hsig]
      intro he
      exact differOneChar_ne hdiff (congrArg String.data he.symm)
    simp [decodeClaims, jwtDecode_sig_ne hne]
  · intro p e now hexp hlt hsub
    simp [decodeClaims, jwtEncode, jwtDecode, hexp, hlt, hsub]

/-- C2 amended witness: the three rejections at concrete tokens — a signed
token expired at time 10, the issued alice token with the first character
of its signature altered, and a signed unexpired token with no subject. -/
theorem decode_error_classification_witness :
    decodeClaims (jwtEncode SECRET_KEY [("sub", .str "alice"), ("exp", .int 5)]) 10
      = .error .expired
  ∧ decodeClaims
      { payload := (create_access_token [("sub", ClaimVal.str "alice")] (some 60) 0).payload,
        sig := "Hmac[your-secret-key|sub=s:alice;exp=i:60;]" } 0
      = .error .badSignature
  ∧ decodeClaims (jwtEncode SECRET_KEY [("exp", .int 100)]) 10 = .error .malformed :=
  ⟨decode_error_classification.1 _ 5 10 rfl (by decide),
   decode_error_classification.2.1 _ (some 60) 0 0 _ rfl,
   decode_error_classification.2.2 _ 100 10 rfl (by decide) rfl⟩

/-- C3. Deleted-subject denial: a correctly-signed, unexpired token whose
subject resolves to no row is denied with the same 401
`credentials_exception` a token error produces (second conjunct: the
bad-signature case yields the very same error), with no identity
returned. -/
theorem deleted_subject_denied (s : String) (ttl now : Int) (db : DB)
    (httl : 0 < ttl) (hno : findByUsername db s = none) :
    get_current_user (create_access_token [("sub", .str s)] (some ttl) now) db now
      = .error credentials_exception
  ∧ get_current_user { payload := [("sub", ClaimVal.str s)], sig := "" } db now
      = .error credentials_exception := by
  constructor
  · simp [get_current_user,
      decodeClaims_issue s ttl now now (by omega) (by omega), hno]
  · have hne : ¬ ("" : String) = hmacSign SECRET_KEY [("sub", ClaimVal.str s)] :=
      fun he => hmacSign_ne_empty _ _ he.symm
    simp [get_current_user, decodeClaims, jwtDecode_sig_ne hne]

/-- C3 witness: the alice token against an empty store. -/
theorem deleted_subject_denied_witness :
    get_current_user (create_access_token [("sub", .str "alice")] (some 60) 0) [] 0
      = .error credentials_exception
  ∧ get_current_user { payload := [("sub", ClaimVal.str "alice")], sig := "" } [] 0
      = .error credentials_exception :=
  deleted_subject_denied "alice" 60 0 [] (by decide) rfl

/-- C4. Inactive-account distinct signal: a token that passes signature,
expiry and lookup but resolves to a row with the active flag false is
denied with the distinct 400 "Inactive user" error, which differs from the
plain 401 `credentials_exception` used for every other failure. -/
theorem inactive_user_distinct_signal (s : String) (ttl now : Int) (db : DB)
    (r : User) (httl : 0 < ttl) (hfind : findByUsername db s = some r)
    (hinactive : r.is_active = false) :
    get_current_active_user (create_access_token [("sub", .str s)] (some ttl) now) db now
      = .error { status_code := 400, detail := "Inactive user" }
  ∧ (HTTPError.mk 400 "Inactive user") ≠ credentials_exception := by
  constructor
  · simp [get_current_active_user, get_current_user,
      decodeClaims_issue s ttl now now (by omega) (by omega), hfind, hinactive]
  · decide

/-- C4 witness: a store holding only an inactive alice row. -/
theorem inactive_user_distinct_signal_witness :
    get_current_active_user (create_access_token [("sub", .str "alice")] (some 60) 0)
        [{ id := 1, username := "alice", email := "alice@example.com",
           hashed_password := "bc$7$pw123", role := "agent", is_active := false }] 0
      = .error { status_code := 400, detail := "Inactive user" }
  ∧ (HTTPError.mk 400 "Inactive user") ≠ credentials_exception :=
  inactive_user_distinct_signal "alice" 60 0 _ _ (by decide) rfl rfl

/-- C5. Authentication failure indistinguishability: with an existing
username but a non-verifying password, and with a username matching no
row, `authenticate_user` returns the same observable no-identity result,
so the caller cannot tell "no such user" from "wrong password". -/
theorem auth_failure_indistinguishable (db : DB) (u1 p1 u2 p2 : String)
    (r : User) (h1 : findByUsername db u1 = some r)
    (h2 : verify_password p1 r.hashed_password = false)
    (h3 : findByUsername db u2 = none) :
    authenticate_user db u1 p1 = none
  ∧ authenticate_user db u2 p2 = none
  ∧ authenticate_user db u1 p1 = authenticate_user db u2 p2 := by
  have e1 : authenticate_user db u1 p1 = none := by
    simp [authenticate_user, h1, h2]
  have e2 : authenticate_user db u2 p2 = none := by
    simp [authenticate_user, h3]
  exact ⟨e1, e2, by rw [e1, e2]⟩

/-- C5 witness: a store with alice only; a wrong password for alice and
any password for the absent bob give the same result. -/
theorem auth_failure_indistinguishable_witness :
    authenticate_user
        [{ id := 1, username := "alice", email := "alice@example.com",
           hashed_password := "bc$7$pw123", role := "agent", is_active := true }]
        "alice" "wrong" = none
  ∧ authenticate_user
        [{ id := 1, username := "alice", email := "alice@example.com",
           hashed_password := "bc$7$pw123", role := "agent", is_active := true }]
        "bob" "pw123" = none
  ∧ authenticate_user
        [{ id := 1, username := "alice", email := "alice@example.com",
           hashed_password := "bc$7$pw123", role := "agent", is_active := true }]
        "alice" "wrong"
      = authenticate_user
        [{ id := 1, username := "alice", email := "alice@example.com",
           hashed_password := "bc$7$pw123", role := "agent", is_active := true }]
        "bob" "pw123" :=
  auth_failure_indistinguishable _ "alice" "wrong" "bob" "pw123" _ rfl (by decide) rfl

/-- C7. Token lifetime defaults: every token the login endpoint issues
expires exactly 30 minutes (1800 s) after issuance, while
`create_access_token` with no `expires_delta` uses the codec's own fixed
15-minute (900 s) default. -/
theorem token_lifetime_defaults (db : DB) (u p : String) (now : Int)
    (tok : Token) (hlogin : login db u p now = .ok tok) :
    tok.payload.lookup "exp" = some (.int (now + 30 * 60))
  ∧ ∀ (data : Payload) (now2 : Int),
      (create_access_token data none now2).payload.lookup "exp"
        = some (.int (now2 + 15 * 60)) := by
  constructor
  · rw [login_ok_shape hlogin]
    simp [create_access_token, jwtEncode, ACCESS_TOKEN_EXPIRE_MINUTES,
      lookup_updateClaim_self]
  · intro data now2
    simp [create_access_token, jwtEncode, lookup_updateClaim_self]

/-- C7 witness: alice's login token at time 0 expires at 1800, and a
token issued with no delta at time 0 expires at 900. -/
theorem token_lifetime_defaults_witness :
    (create_access_token [("sub", ClaimVal.str "alice")]
        (some (ACCESS_TOKEN_EXPIRE_MINUTES * 60)) 0).payload.lookup "exp"
      = some (.int (0 + 30 * 60))
  ∧ (create_access_token [("sub", ClaimVal.str "alice")] none 0).payload.lookup "exp"
      = some (.int (0 + 15 * 60)) :=
  have h := token_lifetime_defaults
    [{ id := 1, username := "alice", email := "alice@example.com",
       hashed_password := "bc$7$pw123", role := "agent", is_active := true }]
    "alice" "pw123" 0
    (create_access_token [("sub", ClaimVal.str "alice")]
      (some (ACCESS_TOKEN_EXPIRE_MINUTES * 60)) 0) rfl
  ⟨h.1, h.2 [("sub", ClaimVal.str "alice")] 0⟩

/-- C8. Registration conflict with atomicity: a request whose username
already exists, or whose email already exists, is rejected with a 400
conflict and the store is returned unchanged; when neither exists, a row
is created holding the hashed password. -/
theorem register_conflict_atomicity (u : UserCreate) (db : DB) (salt : Nat) :
    (findByUsername db u.username ≠ none ∨ findByEmail db u.email ≠ none →
      ∃ err, register u db salt = (.error err, db) ∧ err.status_code = 400)
  ∧ (findByUsername db u.username = none → findByEmail db u.email = none →
      ∃ nu, register u db salt = (.ok nu, db ++ [nu])
        ∧ nu.username = u.username ∧ nu.email = u.email
        ∧ nu.hashed_password = get_password_hash salt u.password
        ∧ nu.is_active = true) := by
  constructor
  · intro hconf
    cases hu : findByUsername db u.username with
    | some r =>
      refine ⟨{ status_code := 400, detail := "Username already registered" }, ?_, rfl⟩
      simp [register, hu]
    | none =>
      cases he : findByEmail db u.email with
      | some r =>
        refine ⟨{ status_code := 400, detail := "Email already registered" }, ?_, rfl⟩
        simp [register, hu, he]
      | none =>
        rcases hconf with hc | hc
        · exact absurd hu hc
        · exact absurd he hc
  · intro hu he
    refine ⟨{ id := db.length + 1, username := u.username, email := u.email,
              hashed_password := get_password_hash salt u.password,
              role := u.role, is_active := true }, ?_, rfl, rfl, rfl, rfl⟩
    simp [register, hu, he]

/-- C8 witness: registering a duplicate alice is a 400 leaving the store
unchanged; registering bob into an empty store creates the hashed row. -/
theorem register_conflict_atomicity_witness :
    (∃ err,
      register { username := "alice", email := "other@example.com",
                 password := "pw", role := "agent" }
        [{ id := 1, username := "alice", email := "alice@example.com",
           hashed_password := "bc$7$pw123", role := "agent", is_active := true }] 3
        = (.error err,
           [{ id := 1, username := "alice", email := "alice@example.com",
              hashed_password := "bc$7$pw123", role := "agent", is_active := true }])
      ∧ err.status_code = 400)
  ∧ (∃ nu,
      register { username := "bob", email := "bob@example.com",
                 password := "pw", role := "agent" } [] 3
        = (.ok nu, [] ++ [nu])
      ∧ nu.username = "bob" ∧ nu.email = "bob@example.com"
      ∧ nu.hashed_password = get_password_hash 3 "pw"
      ∧ nu.is_active = true) :=
  ⟨(register_conflict_atomicity _ _ 3).1 (Or.inl (by decide)),
   (register_conflict_atomicity _ _ 3).2 rfl rfl⟩

/-- C9. Inactive accounts can still log in: a row whose active flag is
false but whose digest verifies the password authenticates, and login
issues a token that `get_current_user` accepts; only
`get_current_active_user` rejects it, with the inactive signal. -/
theorem inactive_can_login (db : DB) (u p : String) (r : User) (now : Int)
    (hfind : findByUsername db u = some r)
    (hverify : verify_password p r.hashed_password = true)
    (hinactive : r.is_active = false) :
    authenticate_user db u p = some r
  ∧ ∃ tok, login db u p now = .ok tok
      ∧ get_current_user tok db now = .ok r
      ∧ get_current_active_user tok db now
          = .error { status_code := 400, detail := "Inactive user" } := by
  have hauth : authenticate_user db u p = some r := by
    simp [authenticate_user, hfind, hverify]
  have husr : r.username = u := findByUsername_username hfind
  have hdec := decodeClaims_issue u (ACCESS_TOKEN_EXPIRE_MINUTES * 60) now now
    (by simp only [ACCESS_TOKEN_EXPIRE_MINUTES]; omega)
    (by simp only [ACCESS_TOKEN_EXPIRE_MINUTES]; omega)
  refine ⟨hauth,
    create_access_token [("sub", .str u)] (some (ACCESS_TOKEN_EXPIRE_MINUTES * 60)) now,
    ?_, ?_, ?_⟩
  · simp [login, hauth, husr]
  · simp [get_current_user, hdec, hfind]
  · simp [get_current_active_user, get_current_user, hdec, hfind, hinactive]

/-- C9 witness: an inactive alice with a verifying digest authenticates
and receives a token accepted by the token and lookup stages. -/
theorem inactive_can_login_witness :
    authenticate_user
        [{ id := 1, username := "alice", email := "alice@example.com",
           hashed_password := "bc$7$pw123", role := "agent", is_active := false }]
        "alice" "pw123"
      = some { id := 1, username := "alice", email := "alice@example.com",
               hashed_password := "bc$7$pw123", role := "agent", is_active := false }
  ∧ ∃ tok,
      login [{ id := 1, username := "alice", email := "alice@example.com",
               hashed_password := "bc$7$pw123", role := "agent", is_active := false }]
          "alice" "pw123" 0 = .ok tok
      ∧ get_current_user tok
          [{ id := 1, username := "alice", email := "alice@example.com",
             hashed_password := "bc$7$pw123", role := "agent", is_active := false }] 0
          = .ok { id := 1, username := "alice", email := "alice@example.com",
                  hashed_password := "bc$7$pw123", role := "agent", is_active := false }
      ∧ get_current_active_user tok
          [{ id := 1, username := "alice", email := "alice@example.com",
             hashed_password := "bc$7$pw123", role := "agent", is_active := false }] 0
          = .error { status_code := 400, detail := "Inactive user" } :=
  inactive_can_login _ "alice" "pw123" _ 0 rfl rfl rfl

/-- C10. Minimal token claims and fresh per-request resolution: a login
token carries exactly the subject and expiry claims, so for the same
unexpired token the active flag (and the returned row, hence the role)
used at request time comes from the store current at that request — an
active row is accepted, an inactive row in another store state is
rejected, without reissuing the token. -/
theorem minimal_claims_fresh_resolution (db : DB) (u p : String) (now : Int)
    (tok : Token) (hlogin : login db u p now = .ok tok) :
    tok.payload.map Prod.fst = ["sub", "exp"]
  ∧ tok.payload.lookup "sub" = some (.str u)
  ∧ ∀ (now2 : Int) (db1 db2 : DB) (r1 r2 : User),
      now2 ≤ now + 30 * 60 →
      findByUsername db1 u = some r1 → r1.is_active = true →
      findByUsername db2 u = some r2 → r2.is_active = false →
      get_current_active_user tok db1 now2 = .ok r1
        ∧ get_current_active_user tok db2 now2
            = .error { status_code := 400, detail := "Inactive user" } := by
  rw [login_ok_shape hlogin]
  refine ⟨?_, ?_, ?_⟩
  · simp [create_access_token, jwtEncode, updateClaim, List.filter,
      ACCESS_TOKEN_EXPIRE_MINUTES]
  · rw [show (create_access_token [("sub", ClaimVal.str u)]
        (some (ACCESS_TOKEN_EXPIRE_MINUTES * 60)) now).payload
        = updateClaim [("sub", ClaimVal.str u)] "exp"
            (.int (now + ACCESS_TOKEN_EXPIRE_MINUTES * 60)) from by
      simp [create_access_token, jwtEncode, ACCESS_TOKEN_EXPIRE_MINUTES]]
    rw [lookup_updateClaim_other _ _ _ _ (by decide)]
    rfl
  · intro now2 db1 db2 r1 r2 hnow hf1 ha1 hf2 ha2
    have hdec := decodeClaims_issue u (ACCESS_TOKEN_EXPIRE_MINUTES * 60) now now2
      (by simp only [ACCESS_TOKEN_EXPIRE_MINUTES]; omega)
      (by simp only [ACCESS_TOKEN_EXPIRE_MINUTES]; omega)
    constructor
    · simp [get_current_active_user, get_current_user, hdec, hf1, ha1]
    · simp [get_current_active_user, get_current_user, hdec, hf2, ha2]

/-- C10 witness: alice's token at time 0 has exactly the sub and exp
claims, and against an active store state it is accepted while against an
inactive one it is rejected with the inactive signal. -/
theorem minimal_claims_fresh_resolution_witness :
    (create_access_token [("sub", ClaimVal.str "alice")]
        (some (ACCESS_TOKEN_EXPIRE_MINUTES * 60)) 0).payload.map Prod.fst
      = ["sub", "exp"]
  ∧ (create_access_token [("sub", ClaimVal.str "alice")]
        (some (ACCESS_TOKEN_EXPIRE_MINUTES * 60)) 0).payload.lookup "sub"
      = some (.str "alice")
  ∧ (get_current_active_user
        (create_access_token [("sub", ClaimVal.str "alice")]
          (some (ACCESS_TOKEN_EXPIRE_MINUTES * 60)) 0)
        [{ id := 1, username := "alice", email := "alice@example.com",
           hashed_password := "bc$7$pw123", role := "admin", is_active := true }] 0
      = .ok { id := 1, username := "alice", email := "alice@example.com",
              hashed_password := "bc$7$pw123", role := "admin", is_active := true }
    ∧ get_current_active_user
        (create_access_token [("sub", ClaimVal.str "alice")]
          (some (ACCESS_TOKEN_EXPIRE_MINUTES * 60)) 0)
        [{ id := 1, username := "alice", email := "alice@example.com",
           hashed_password := "bc$7$pw123", role := "agent", is_active := false }] 0
      = .error { status_code := 400, detail := "Inactive user" }) :=
  have h := minimal_claims_fresh_resolution
    [{ id := 1, username := "alice", email := "alice@example.com",
       hashed_password := "bc$7$pw123", role := "admin", is_active := true }]
    "alice" "pw123" 0
    (create_access_token [("sub", ClaimVal.str "alice")]
      (some (ACCESS_TOKEN_EXPIRE_MINUTES * 60)) 0) rfl
  ⟨h.1, h.2.1, h.2.2 0 _ _ _ _ (by decide) rfl rfl rfl rfl⟩

end SupportCRM
